import Mathlib

/-!
Verification of the newtons-method cross-validation harness.

This file gives a shallow embedding, over the real numbers, of the Python
modules `comparator.py`, `scipy_runner.py`, `ts_runner.py` and
`data_problems.py`, and proves (or refutes) the frozen specification claims
about them.  Machine floats are idealised as real numbers; the IEEE
non-finite values that the code manipulates explicitly (`np.inf`, `NaN`)
are modelled by the dedicated type `RVal` below.
-/

set_option maxHeartbeats 1600000

/-- Model of a Python float as stored in result records: either a finite
real number or one of the non-finite IEEE values the code produces
(`np.inf`, `-inf`, `nan`). -/
inductive RVal where
  | fin (x : ℝ) : RVal
  | inf : RVal
  | negInf : RVal
  | nan : RVal

/-- Model of `np.isfinite` on an `RVal`. -/
def RVal.isfinite : RVal → Bool
  | .fin _ => true
  | _ => false

/-- Idealised coercion to a real number (used only where the source stores
an already-parsed float into a position vector; non-finite entries are
idealised to `0`, a corner no claim depends on). -/
def RVal.toReal : RVal → ℝ
  | .fin x => x
  | _ => 0

/-- Vectors (`np.ndarray` of floats) are lists of reals. -/
abbrev Vec := List ℝ

/-- Pointwise vector addition (`numpy` `+` on same-shape arrays). -/
def vadd (a b : Vec) : Vec := List.zipWith (· + ·) a b

/-- Pointwise vector subtraction (`numpy` `-` on same-shape arrays). -/
def vsub (a b : Vec) : Vec := List.zipWith (· - ·) a b

/-- Scalar multiplication of a vector. -/
def smul (c : ℝ) (v : Vec) : Vec := v.map (fun x => c * x)

/-- Pointwise negation (`-grad`). -/
def vneg (v : Vec) : Vec := v.map (fun x => -x)

/-- Dot product (`np.dot`). -/
def vdot (a b : Vec) : ℝ := (List.zipWith (· * ·) a b).sum

/-- Euclidean norm (`np.linalg.norm`). -/
noncomputable def norm2 (v : Vec) : ℝ := Real.sqrt ((v.map (fun x => x * x)).sum)

/-- One captured iteration (`{'iter': i, 'w': w, 'loss': l, 'grad_norm': g}`). -/
structure IterRec where
  iter : ℕ
  w : Vec
  loss : ℝ
  grad_norm : ℝ

/-- An optimization result record as produced by the drivers in
`scipy_runner.py` and consumed by `compare_results`. -/
structure OptResult where
  converged : Bool
  iterations : ℕ
  final_loss : RVal
  final_w : Vec
  final_grad_norm : RVal
  message : String
  history : List IterRec

/-- Comparison result status (`ComparisonStatus` in `comparator.py`). -/
inductive ComparisonStatus where
  | PASS : ComparisonStatus
  | SUSPICIOUS : ComparisonStatus
  | FAIL : ComparisonStatus
deriving DecidableEq

/-- An entry of the `issues` list of `compare_results`.  The Python code
builds formatted strings; we keep the constructor and the numeric payloads
and drop the presentation-layer formatting. -/
inductive Issue where
  | bothCorrectlyDiverged : Issue
  | convergenceMismatch (py ts : Bool) : Issue
  | bothDivergedUnexpected : Issue
  | nonFiniteLoss (py ts : RVal) : Issue
  | lossDiffers (rel : ℝ) (py ts : ℝ) : Issue
  | positionsDiffer (d : ℝ) : Issue
  | iterCountDiffers (q : ℝ) (py ts : ℕ) : Issue
  | allWithinTolerance : Issue

/-- Headline metrics of one input, echoed into `details`. -/
structure Summary where
  converged : Bool
  iterations : ℕ
  final_loss : RVal
  final_grad_norm : RVal

/-- The `details` dictionary returned by `compare_results`. -/
structure Details where
  python : Summary
  ts : Summary
  issues : List Issue

/-- Headline summary of a record (the `details['python']` / `details['ts']`
sub-dictionaries). -/
def summaryOf (r : OptResult) : Summary :=
  { converged := r.converged, iterations := r.iterations,
    final_loss := r.final_loss, final_grad_norm := r.final_grad_norm }

/-- The relative loss difference `loss_diff / (abs(py_loss) + 1e-10)`
computed by `compare_results`; note the denominator uses the magnitude of
the FIRST argument's loss. -/
noncomputable def relDiff (pyLoss tsLoss : ℝ) : ℝ :=
  |pyLoss - tsLoss| / (|pyLoss| + 1 / 10 ^ 10)

/-- The iteration-count quotient `max(py,ts) / max(min(py,ts), 1)`. -/
noncomputable def iterQuot (py ts : ℕ) : ℝ :=
  (max py ts : ℝ) / (max (min py ts) 1 : ℝ)

/-- Shallow embedding of `compare_results(python_result, ts_result,
problem_name)` from `comparator.py`.  The decision structure (early
returns, threshold constants, order of issue collection) mirrors the source
line by line. -/
noncomputable def compare_results (python_result ts_result : OptResult)
    (problem_name : String) : ComparisonStatus × Details :=
  let pySum := summaryOf python_result
  let tsSum := summaryOf ts_result
  -- special case: saddle point (both should diverge)
  if problem_name = "non-convex-saddle" ∧ python_result.converged = false ∧
      ts_result.converged = false then
    (ComparisonStatus.PASS, ⟨pySum, tsSum, [Issue.bothCorrectlyDiverged]⟩)
  -- critical: convergence mismatch
  else if python_result.converged ≠ ts_result.converged then
    (ComparisonStatus.FAIL,
      ⟨pySum, tsSum,
        [Issue.convergenceMismatch python_result.converged ts_result.converged]⟩)
  -- if both diverged (and not saddle), that is suspicious
  else if python_result.converged = false ∧ ts_result.converged = false then
    (ComparisonStatus.SUSPICIOUS, ⟨pySum, tsSum, [Issue.bothDivergedUnexpected]⟩)
  else
    -- both converged: compare quality of solution
    match python_result.final_loss, ts_result.final_loss with
    | RVal.fin py_loss, RVal.fin ts_loss =>
      let relative_loss_diff := relDiff py_loss ts_loss
      if relative_loss_diff > 1 / 10 then
        (ComparisonStatus.FAIL,
          ⟨pySum, tsSum, [Issue.lossDiffers relative_loss_diff py_loss ts_loss]⟩)
      else
        let w_diff := norm2 (vsub python_result.final_w ts_result.final_w)
        if w_diff > 1 then
          (ComparisonStatus.FAIL, ⟨pySum, tsSum, [Issue.positionsDiffer w_diff]⟩)
        else
          let issues₁ :=
            if relative_loss_diff > 1 / 100 then
              [Issue.lossDiffers relative_loss_diff py_loss ts_loss]
            else []
          let issues₂ := issues₁ ++
            (if python_result.iterations > 0 ∧ ts_result.iterations > 0 ∧
                iterQuot python_result.iterations ts_result.iterations > 3 then
              [Issue.iterCountDiffers
                (iterQuot python_result.iterations ts_result.iterations)
                python_result.iterations ts_result.iterations]
            else [])
          let issues₃ := issues₂ ++
            (if 1 / 10 < w_diff ∧ w_diff ≤ 1 then [Issue.positionsDiffer w_diff]
            else [])
          match issues₃ with
          | [] => (ComparisonStatus.PASS, ⟨pySum, tsSum, [Issue.allWithinTolerance]⟩)
          | _ => (ComparisonStatus.SUSPICIOUS, ⟨pySum, tsSum, issues₃⟩)
    | pyl, tsl =>
      (ComparisonStatus.FAIL, ⟨pySum, tsSum, [Issue.nonFiniteLoss pyl tsl]⟩)

/-- A concrete converged record with final loss `1.0` (used to exhibit the
order-dependence of the comparator verdict). -/
noncomputable def cexPy : OptResult :=
  { converged := true, iterations := 1, final_loss := RVal.fin 1,
    final_w := [0, 0], final_grad_norm := RVal.fin 0, message := "", history := [] }

/-- A concrete converged record with final loss `1.105`, differing from
`cexPy` only in the loss. -/
noncomputable def cexTs : OptResult :=
  { converged := true, iterations := 1, final_loss := RVal.fin (221 / 200),
    final_w := [0, 0], final_grad_norm := RVal.fin 0, message := "", history := [] }

/-- A problem bundle: objective and gradient (the interface the drivers in
`scipy_runner.py` use). -/
structure ProblemF where
  objective : Vec → ℝ
  gradient : Vec → Vec

/-- The Armijo sufficient-decrease condition
`f(w + t*d) <= f(w) + c1 * t * (d . grad)` tested by the backtracking
loop at step size `t`. -/
def armijoOK (obj : Vec → ℝ) (w d : Vec) (loss dir_grad c1 t : ℝ) : Prop :=
  obj (vadd w (smul t d)) ≤ loss + c1 * t * dir_grad

/-- Objective of a stiff one-dimensional quadratic `2^20 * x^2` (used to
exhibit a run in which every backtracking trial fails). -/
noncomputable def cexObj : Vec → ℝ := fun v => 2 ^ 20 * (v.getD 0 0) ^ 2

/-- Gradient of `cexObj`. -/
noncomputable def cexGrad : Vec → Vec := fun v => [2 * 2 ^ 20 * v.getD 0 0]

/-- The Armijo backtracking loop of `gradient_descent_linesearch`
(`for trial in range(max_line_search_trials): ... alpha *= rho`), with the
remaining trial count as first numeric argument and the current `alpha` as
the last.  Returns the `alpha` in scope when the loop exits. -/
noncomputable def backtrack (obj : Vec → ℝ) (w d : Vec) (loss dir_grad c1 rho : ℝ) :
    ℕ → ℝ → ℝ
  | 0, alpha => alpha
  | n + 1, alpha =>
    if obj (vadd w (smul alpha d)) ≤ loss + c1 * alpha * dir_grad then alpha
    else backtrack obj w d loss dir_grad c1 rho n (alpha * rho)

/-- The shared iteration loop of `gradient_descent_fixed` and
`gradient_descent_linesearch`: record the current iterate, return a
converged result if `grad_norm < tol`, otherwise advance by `stepF` and
recurse; when the trial budget is exhausted, record a trailing entry at
index `maxIter` and return a non-converged result.  Arguments: `maxIter`
the configured cap, then remaining iterations, current index `i`, current
iterate and accumulated history. -/
noncomputable def gdLoop (P : ProblemF) (tol : ℝ) (stepF : Vec → Vec) (maxIter : ℕ) :
    ℕ → ℕ → Vec → List IterRec → OptResult
  | 0, _i, w, acc =>
    let final_grad := P.gradient w
    let final_grad_norm := norm2 final_grad
    let final_loss := P.objective w
    { converged := false
      iterations := maxIter
      final_loss := RVal.fin final_loss
      final_w := w
      final_grad_norm := RVal.fin final_grad_norm
      message := "Max iterations reached"
      history := acc ++ [⟨maxIter, w, final_loss, final_grad_norm⟩] }
  | n + 1, i, w, acc =>
    let grad := P.gradient w
    let grad_norm := norm2 grad
    let loss := P.objective w
    let acc' := acc ++ [⟨i, w, loss, grad_norm⟩]
    if grad_norm < tol then
      { converged := true
        iterations := i + 1
        final_loss := RVal.fin loss
        final_w := w
        final_grad_norm := RVal.fin grad_norm
        message := "Converged: grad_norm < tol"
        history := acc' }
    else gdLoop P tol stepF maxIter n (i + 1) (stepF w) acc'

/-- One update of fixed-step gradient descent (`w = w - alpha * grad`). -/
noncomputable def fixedStep (P : ProblemF) (alpha : ℝ) (w : Vec) : Vec :=
  vsub w (smul alpha (P.gradient w))

/-- Shallow embedding of `gradient_descent_fixed(problem, x0, alpha,
max_iter, tol)` from `scipy_runner.py`. -/
noncomputable def gradient_descent_fixed (P : ProblemF) (x0 : Vec) (alpha : ℝ)
    (max_iter : ℕ) (tol : ℝ) : OptResult :=
  gdLoop P tol (fixedStep P alpha) max_iter max_iter 0 x0 []

/-- One update of line-search gradient descent: steepest-descent direction,
Armijo backtracking from `alpha = 1.0`, then `w = w + alpha * direction`. -/
noncomputable def lineSearchStep (P : ProblemF) (c1 rho : ℝ) (trials : ℕ)
    (w : Vec) : Vec :=
  let loss := P.objective w
  let grad := P.gradient w
  let direction := vneg grad
  let dir_grad := vdot direction grad
  let alpha := backtrack P.objective w direction loss dir_grad c1 rho trials 1
  vadd w (smul alpha direction)

/-- Shallow embedding of `gradient_descent_linesearch(problem, x0, max_iter,
tol, c1, rho, max_line_search_trials)` from `scipy_runner.py`. -/
noncomputable def gradient_descent_linesearch (P : ProblemF) (x0 : Vec)
    (max_iter : ℕ) (tol c1 rho : ℝ) (trials : ℕ) : OptResult :=
  gdLoop P tol (lineSearchStep P c1 rho trials) max_iter max_iter 0 x0 []

/-- Outcome of the delegated `scipy.optimize.minimize` call: `.ok` carries
the fields of the scipy result object that `run_scipy_optimizer` reads,
`.error` carries the text of a raised exception. -/
structure ScipyMin where
  success : Bool
  fn : RVal
  x : Vec
  message : String

/-- Shallow embedding of `run_scipy_optimizer` from `scipy_runner.py`.  The
out-of-process state is made explicit: `delegate` is the outcome of the
`optimize.minimize` call (`Except.error e` models a raised exception with
text `e`) and `captured` is the list of records the iteration callback
appended during that call.  An unknown algorithm raises (`Except.error`),
mirroring `raise ValueError(...)`. -/
noncomputable def run_scipy_optimizer (P : ProblemF) (algorithm : String) (x0 : Vec)
    (max_iter : ℕ) (tol alpha c1 : ℝ) (delegate : Except String ScipyMin)
    (captured : List IterRec) : Except String OptResult :=
  if algorithm = "gd-fixed" then
    Except.ok (gradient_descent_fixed P x0 alpha max_iter tol)
  else if algorithm = "gd-linesearch" then
    Except.ok (gradient_descent_linesearch P x0 max_iter tol c1 (1 / 2) 20)
  else if algorithm ≠ "newton" ∧ algorithm ≠ "lbfgs" then
    Except.error ("Unknown algorithm: " ++ algorithm)
  else
    match delegate with
    | Except.ok r =>
      Except.ok
        { converged := r.success
          iterations := captured.length
          final_loss := r.fn
          final_w := r.x
          final_grad_norm := RVal.fin (norm2 (P.gradient r.x))
          message := r.message
          history := captured }
    | Except.error e =>
      Except.ok
        { converged := false
          iterations := captured.length
          final_loss := RVal.inf
          final_w := x0
          final_grad_norm := RVal.inf
          message := "Error: " ++ e
          history := captured }

/-- A result record in the shape produced by `ts_runner.py` (the driver
record shape minus the history, plus the raw CLI text). -/
structure TsRecord where
  converged : Bool
  iterations : ℕ
  final_loss : RVal
  final_w : Vec
  final_grad_norm : RVal
  message : String
  raw_output : String

/-- Does `needle` occur at the head of `hay`? -/
def charsStartWith : List Char → List Char → Bool
  | [], _ => true
  | _ :: _, [] => false
  | c :: cs, d :: ds => c == d && charsStartWith cs ds

/-- Substring containment on character lists (Python `needle in hay`). -/
def charsContain (needle : List Char) : List Char → Bool
  | [] => charsStartWith needle []
  | c :: cs => charsStartWith needle (c :: cs) || charsContain needle cs

/-- Python substring test `needle in hay` on strings. -/
def strContains (hay needle : String) : Bool := charsContain needle.data hay.data

/-- Try each suffix of the input from the left and return the first match:
the semantics of `re.search` for the anchored-at-a-position matchers
below. -/
def searchTails {α : Type} (f : List Char → Option α) : List Char → Option α
  | [] => f []
  | c :: cs =>
    match f (c :: cs) with
    | some v => some v
    | none => searchTails f cs

/-- Drop a literal from the head of the input, or fail. -/
def dropLit (needle : List Char) (l : List Char) : Option (List Char) :=
  if charsStartWith needle l then some (l.drop needle.length) else none

/-- Numeric value of a digit run (`int(...)` on a `\d+` group). -/
def digitsVal (ds : List Char) : ℕ :=
  ds.foldl (fun acc c => 10 * acc + (c.toNat - '0'.toNat)) 0

/-- Matcher for the regular expressions `in (\d+) iterations?` and
`after (\d+) iterations?` at the current position (`pre` is the leading
literal). -/
def matchIterPat (pre : List Char) (l : List Char) : Option ℕ := do
  let rest ← dropLit pre l
  let ds := rest.takeWhile Char.isDigit
  if ds.isEmpty then none
  else do
    let _ ← dropLit " iteration".data (rest.dropWhile Char.isDigit)
    some (digitsVal ds)

/-- Matcher for the regular expression `Iterations:\s*(\d+)` at the current
position. -/
def matchItersColon (l : List Char) : Option ℕ := do
  let rest ← dropLit "Iterations:".data l
  let rest2 := rest.dropWhile Char.isWhitespace
  let ds := rest2.takeWhile Char.isDigit
  if ds.isEmpty then none else some (digitsVal ds)

/-- Matcher for `LABEL\s*(\S+)` at the current position, returning the
non-whitespace token. -/
def matchToken (label : List Char) (l : List Char) : Option (List Char) := do
  let rest ← dropLit label l
  let rest2 := rest.dropWhile Char.isWhitespace
  let tok := rest2.takeWhile (fun c => !c.isWhitespace)
  if tok.isEmpty then none else some tok

/-- Matcher for `Final position:\s*\[(.*?)\]` at the current position: a
lazy body up to the first `]`, in which `.` does not match a newline. -/
def matchPos (l : List Char) : Option (List Char) := do
  let rest ← dropLit "Final position:".data l
  let rest2 := rest.dropWhile Char.isWhitespace
  match rest2 with
  | '[' :: rest3 =>
    let content := rest3.takeWhile (fun c => c != ']' && c != '\n')
    match rest3.dropWhile (fun c => c != ']' && c != '\n') with
    | ']' :: _ => some content
    | _ => none
  | _ => none

/-- Python `str.split(',')` on character lists. -/
def splitComma : List Char → List (List Char)
  | [] => [[]]
  | ',' :: t => [] :: splitComma t
  | c :: t =>
    match splitComma t with
    | [] => [[c]]
    | h :: r => (c :: h) :: r

/-- Python `str.strip()` on character lists. -/
def trimChars (l : List Char) : List Char :=
  ((l.dropWhile Char.isWhitespace).reverse.dropWhile Char.isWhitespace).reverse

/-- Mantissa and exponent part of a Python float literal, after the sign:
digits, an optional fraction, and an optional exponent.  Returns the value
as a real number, or fails for a malformed literal (modelling the
`ValueError` of `float(...)`). -/
noncomputable def parseDecimal (l : List Char) : Option ℝ := do
  let ip := l.takeWhile Char.isDigit
  let r1 := l.dropWhile Char.isDigit
  let (fp, r2) :=
    match r1 with
    | '.' :: t => (t.takeWhile Char.isDigit, t.dropWhile Char.isDigit)
    | _ => ([], r1)
  if ip.isEmpty && fp.isEmpty then none
  else
    let mant : ℝ := (digitsVal ip : ℝ) + (digitsVal fp : ℝ) / 10 ^ fp.length
    match r2 with
    | [] => some mant
    | 'e' :: t =>
      let (eneg, t2) :=
        match t with
        | '-' :: u => (true, u)
        | '+' :: u => (false, u)
        | u => (false, u)
      let eds := t2.takeWhile Char.isDigit
      if eds.isEmpty then none
      else if (t2.dropWhile Char.isDigit).isEmpty then
        some (if eneg then mant / 10 ^ digitsVal eds else mant * 10 ^ digitsVal eds)
      else none
    | _ => none

/-- Model of Python `float(s)`: strip whitespace, lower-case, optional
sign, then `inf`/`infinity`/`nan` or a decimal literal; `none` models a
raised `ValueError`. -/
noncomputable def pyFloat (s : String) : Option RVal :=
  let l := (trimChars s.data).map Char.toLower
  let (neg, body) :=
    match l with
    | '-' :: t => (true, t)
    | '+' :: t => (false, t)
    | t => (false, t)
  if body == "inf".data || body == "infinity".data then
    some (if neg then RVal.negInf else RVal.inf)
  else if body == "nan".data then some RVal.nan
  else
    match parseDecimal body with
    | some v => some (RVal.fin (if neg then -v else v))
    | none => none

/-- The record `parse_ts_output` returns from its `except` handler, also
used by the failure branches of `run_typescript_test` (with the message
text varying). -/
def failRecord (initial : Vec) (message raw : String) : TsRecord :=
  { converged := false
    iterations := 0
    final_loss := RVal.inf
    final_w := initial
    final_grad_norm := RVal.inf
    message := message
    raw_output := raw }

/-- The iteration count extracted by `parse_ts_output`: the three patterns
tried in order, defaulting to `0`. -/
def iterField (stdout : String) : ℕ :=
  match searchTails (matchIterPat "in ".data) stdout.data with
  | some n => n
  | none =>
    match searchTails (matchIterPat "after ".data) stdout.data with
    | some n => n
    | none => (searchTails matchItersColon stdout.data).getD 0

/-- A labelled float field of the CLI output (`Final loss:` / `Final grad
norm:`): a token containing `NaN` or `Infinity` yields `inf`, a missing
label yields `inf`, and a malformed numeral raises (`none`). -/
noncomputable def floatField (label : String) (stdout : String) : Option RVal :=
  match searchTails (matchToken label.data) stdout.data with
  | some tok =>
    if strContains (String.mk tok) "NaN" || strContains (String.mk tok) "Infinity" then
      some RVal.inf
    else pyFloat (String.mk tok)
  | none => some RVal.inf

/-- The optional `Final position:` vector of the CLI output; defaults to
the initial position when the label is missing, raises (`none`) on a
malformed numeral. -/
noncomputable def posField (stdout : String) (initial : Vec) : Option Vec :=
  match searchTails matchPos stdout.data with
  | some content =>
    (splitComma content).mapM fun p =>
      (pyFloat (String.mk (trimChars p))).map RVal.toReal
  | none => some initial

/-- The body of the `try` block of `parse_ts_output`: `none` models a
raised exception (a malformed numeral handed to `float`). -/
noncomputable def parse_ts_core (stdout : String) (initial : Vec) : Option TsRecord := do
  let conv0 := strContains stdout "✅ CONVERGED"
  let iterations := iterField stdout
  let final_loss ← floatField "Final loss:" stdout
  let final_grad_norm ← floatField "Final grad norm:" stdout
  let final_w ← posField stdout initial
  let conv1 :=
    if strContains stdout "DID NOT CONVERGE" || strContains stdout "DIVERGED" ||
        strContains stdout "NaN" || strContains stdout "Infinity" then false
    else conv0
  let conv2 := if final_loss.isfinite then conv1 else false
  some
    { converged := conv2
      iterations := iterations
      final_loss := final_loss
      final_w := final_w
      final_grad_norm := final_grad_norm
      message := "Parsed from CLI output"
      raw_output := stdout }

/-- Shallow embedding of `parse_ts_output(stdout, initial)` from
`ts_runner.py`: the `try` body with the `except` handler wrapped around
it. -/
noncomputable def parse_ts_output (stdout : String) (initial : Vec) : TsRecord :=
  (parse_ts_core stdout initial).getD (failRecord initial "Parse error" stdout)

/-- Outcome of the `subprocess.run` call made by `run_typescript_test`:
normal completion with an exit code and captured streams, a timeout
(`subprocess.TimeoutExpired`), or any other exception. -/
inductive ProcOutcome where
  | completed (returncode : ℤ) (stdout stderr : String) : ProcOutcome
  | timedOut : ProcOutcome
  | raised (e : String) : ProcOutcome

/-- Shallow embedding of `run_typescript_test` from `ts_runner.py`, with
the subprocess interaction made explicit as a `ProcOutcome` input. -/
noncomputable def run_typescript_test (outcome : ProcOutcome) (initial : Vec)
    (timeLimit : ℕ) : TsRecord :=
  match outcome with
  | ProcOutcome.completed rc out err =>
    if rc ≠ 0 then failRecord initial ("CLI error: " ++ err) out
    else parse_ts_output out initial
  | ProcOutcome.timedOut =>
    failRecord initial ("Timeout after " ++ toString timeLimit ++ "s") ""
  | ProcOutcome.raised e => failRecord initial ("Error: " ++ e) ""

/-- A labelled 2-D data point (`{'x1': ..., 'x2': ..., 'y': ...}`). -/
structure DataPoint where
  x1 : ℝ
  x2 : ℝ
  y : ℝ

/-- The product of the design-matrix row `[x1, x2, 1.0]` of a point with a
weight vector (`X[i] @ w`). -/
def dotX (p : DataPoint) (w : Vec) : ℝ :=
  w.getD 0 0 * p.x1 + w.getD 1 0 * p.x2 + w.getD 2 0

/-- Sigmoid with overflow clipping (`sigmoid` in `data_problems.py`). -/
noncomputable def sigmoid (z : ℝ) : ℝ :=
  1 / (1 + Real.exp (-(max (-500) (min z 500))))

/-- The margin label recoding `2*y - 1` used by the three margin
classifiers. -/
def mLabel (p : DataPoint) : ℝ := 2 * p.y - 1

/-- Gradient of `LogisticRegression` (`data_problems.py`): `(X.T @ (sigma -
y)) / n`, with `lam * w0` and `lam * w1` added to the first two components
and nothing added to the bias component. -/
noncomputable def LogisticRegression.gradient (pts : List DataPoint) (lam : ℝ)
    (w : Vec) : Vec :=
  let n : ℝ := pts.length
  [(pts.map (fun p => (sigmoid (dotX p w) - p.y) * p.x1)).sum / n + lam * w.getD 0 0,
   (pts.map (fun p => (sigmoid (dotX p w) - p.y) * p.x2)).sum / n + lam * w.getD 1 0,
   (pts.map (fun p => (sigmoid (dotX p w) - p.y) * 1)).sum / n]

/-- Hessian of `LogisticRegression`: `X.T @ diag(sigma*(1-sigma)) @ X / n`
with `lam` added to the `[0][0]` and `[1][1]` diagonal entries only. -/
noncomputable def LogisticRegression.hessian (pts : List DataPoint) (lam : ℝ)
    (w : Vec) : List Vec :=
  let d := fun p => sigmoid (dotX p w) * (1 - sigmoid (dotX p w))
  let n : ℝ := pts.length
  [[(pts.map (fun p => d p * p.x1 * p.x1)).sum / n + lam,
    (pts.map (fun p => d p * p.x1 * p.x2)).sum / n,
    (pts.map (fun p => d p * p.x1 * 1)).sum / n],
   [(pts.map (fun p => d p * p.x2 * p.x1)).sum / n,
    (pts.map (fun p => d p * p.x2 * p.x2)).sum / n + lam,
    (pts.map (fun p => d p * p.x2 * 1)).sum / n],
   [(pts.map (fun p => d p * 1 * p.x1)).sum / n,
    (pts.map (fun p => d p * 1 * p.x2)).sum / n,
    (pts.map (fun p => d p * 1 * 1)).sum / n]]

/-- Subgradient of `SoftMarginSVM`: starts at `[w0, w1, 0.0]` and
subtracts `lam * y_i * X_i` for every constraint with a positive
margin. -/
noncomputable def SoftMarginSVM.gradient (pts : List DataPoint) (lam : ℝ)
    (w : Vec) : Vec :=
  let margin := fun p => 1 - mLabel p * dotX p w
  [w.getD 0 0 - (pts.map (fun p => if margin p > 0 then lam * mLabel p * p.x1 else 0)).sum,
   w.getD 1 0 - (pts.map (fun p => if margin p > 0 then lam * mLabel p * p.x2 else 0)).sum,
   0 - (pts.map (fun p => if margin p > 0 then lam * mLabel p * 1 else 0)).sum]

/-- Gradient of `PerceptronSVM`: starts at `[lam*w0, lam*w1, 0.0]` and
subtracts `y_i * X_i` for every misclassified point. -/
noncomputable def PerceptronSVM.gradient (pts : List DataPoint) (lam : ℝ)
    (w : Vec) : Vec :=
  [lam * w.getD 0 0 -
     (pts.map (fun p => if mLabel p * dotX p w < 0 then mLabel p * p.x1 else 0)).sum,
   lam * w.getD 1 0 -
     (pts.map (fun p => if mLabel p * dotX p w < 0 then mLabel p * p.x2 else 0)).sum,
   0 - (pts.map (fun p => if mLabel p * dotX p w < 0 then mLabel p * 1 else 0)).sum]

/-- Gradient of `SquaredHingeSVM`: starts at `[w0, w1, 0.0]` and subtracts
`2 * lam * margin_i * y_i * X_i` for every positive margin. -/
noncomputable def SquaredHingeSVM.gradient (pts : List DataPoint) (lam : ℝ)
    (w : Vec) : Vec :=
  let margin := fun p => 1 - mLabel p * dotX p w
  [w.getD 0 0 -
     (pts.map (fun p => if margin p > 0 then 2 * lam * margin p * mLabel p * p.x1 else 0)).sum,
   w.getD 1 0 -
     (pts.map (fun p => if margin p > 0 then 2 * lam * margin p * mLabel p * p.x2 else 0)).sum,
   0 - (pts.map (fun p => if margin p > 0 then 2 * lam * margin p * mLabel p * 1 else 0)).sum]

/-- Hessian of `SquaredHingeSVM`: `diag(1,1,0)` plus `2 * lam * outer(X_i,
X_i)` for every positive margin. -/
noncomputable def SquaredHingeSVM.hessian (pts : List DataPoint) (lam : ℝ)
    (w : Vec) : List Vec :=
  let margin := fun p => 1 - mLabel p * dotX p w
  [[1 + (pts.map (fun p => if margin p > 0 then 2 * lam * (p.x1 * p.x1) else 0)).sum,
    0 + (pts.map (fun p => if margin p > 0 then 2 * lam * (p.x1 * p.x2) else 0)).sum,
    0 + (pts.map (fun p => if margin p > 0 then 2 * lam * (p.x1 * 1) else 0)).sum],
   [0 + (pts.map (fun p => if margin p > 0 then 2 * lam * (p.x2 * p.x1) else 0)).sum,
    1 + (pts.map (fun p => if margin p > 0 then 2 * lam * (p.x2 * p.x2) else 0)).sum,
    0 + (pts.map (fun p => if margin p > 0 then 2 * lam * (p.x2 * 1) else 0)).sum],
   [0 + (pts.map (fun p => if margin p > 0 then 2 * lam * (1 * p.x1) else 0)).sum,
    0 + (pts.map (fun p => if margin p > 0 then 2 * lam * (1 * p.x2) else 0)).sum,
    0 + (pts.map (fun p => if margin p > 0 then 2 * lam * (1 * 1) else 0)).sum]]

theorem norm2_nil : norm2 [] = 0 := by
  simp [norm2]

theorem norm2_vsub_self (v : Vec) : norm2 (vsub v v) = 0 := by
  have h : ((vsub v v).map fun x => x * x).sum = 0 := by
    induction v with
    | nil => simp [vsub]
    | cons a t ih => simp_all [vsub]
  simp [norm2, h]

theorem norm2_vsub_comm (a b : Vec) : norm2 (vsub a b) = norm2 (vsub b a) := by
  have h : ∀ u w : Vec, ((vsub u w).map fun x => x * x).sum
      = ((vsub w u).map fun x => x * x).sum := by
    intro u
    induction u with
    | nil => intro w; cases w <;> simp [vsub]
    | cons x t ih =>
      intro w
      cases w with
      | nil => simp [vsub]
      | cons y s =>
        have h2 := ih s
        simp only [vsub, List.zipWith_cons_cons, List.map_cons, List.sum_cons] at h2 ⊢
        rw [h2]; ring
  simp [norm2, h a b]

theorem iterQuot_comm (a b : ℕ) : iterQuot a b = iterQuot b a := by
  simp [iterQuot, max_comm, min_comm]

/-- C3: for problem name `non-convex-saddle`, whenever both records report
non-convergence, `compare_results` returns PASS with the single
"both correctly diverged" issue, regardless of every other field. -/
theorem compare_results_saddle_pass (a b : OptResult) (name : String)
    (hn : name = "non-convex-saddle") (ha : a.converged = false)
    (hb : b.converged = false) :
    (compare_results a b name).1 = ComparisonStatus.PASS ∧
      (compare_results a b name).2.issues = [Issue.bothCorrectlyDiverged] := by
  subst hn
  simp [compare_results, ha, hb]

theorem compare_results_saddle_pass_witness :
    ("non-convex-saddle" : String) = "non-convex-saddle" ∧
      (OptResult.converged ⟨false, 7, RVal.inf, [1, 1], RVal.inf, "", []⟩ = false) ∧
      (OptResult.converged ⟨false, 3, RVal.fin 5, [2], RVal.fin 1, "x", []⟩ = false) ∧
      ((compare_results ⟨false, 7, RVal.inf, [1, 1], RVal.inf, "", []⟩
          ⟨false, 3, RVal.fin 5, [2], RVal.fin 1, "x", []⟩ "non-convex-saddle").1
        = ComparisonStatus.PASS ∧
      (compare_results ⟨false, 7, RVal.inf, [1, 1], RVal.inf, "", []⟩
          ⟨false, 3, RVal.fin 5, [2], RVal.fin 1, "x", []⟩ "non-convex-saddle").2.issues
        = [Issue.bothCorrectlyDiverged]) :=
  ⟨rfl, rfl, rfl,
    compare_results_saddle_pass _ _ _ rfl rfl rfl⟩

/-- C7: two converged records with finite losses at exactly 5% relative
loss difference and equal final positions always yield SUSPICIOUS. -/
theorem compare_results_five_percent_suspicious (a b : OptResult) (name : String)
    (la lb : ℝ) (hca : a.converged = true) (hcb : b.converged = true)
    (hla : a.final_loss = RVal.fin la) (hlb : b.final_loss = RVal.fin lb)
    (hrel : relDiff la lb = 1 / 20) (hw : a.final_w = b.final_w) :
    (compare_results a b name).1 = ComparisonStatus.SUSPICIOUS := by
  have hwd : norm2 (vsub a.final_w b.final_w) = 0 := by
    rw [hw]; exact norm2_vsub_self _
  norm_num [compare_results, hca, hcb, hla, hlb, hrel, hwd]

theorem compare_results_five_percent_suspicious_witness :
    relDiff 1 (1 + 1 / 20 + 1 / (2 * 10 ^ 11)) = 1 / 20 ∧
      (compare_results ⟨true, 10, RVal.fin 1, [1, 2], RVal.fin 0, "", []⟩
        ⟨true, 12, RVal.fin (1 + 1 / 20 + 1 / (2 * 10 ^ 11)), [1, 2], RVal.fin 0, "", []⟩
        "quadratic").1 = ComparisonStatus.SUSPICIOUS := by
  have h : relDiff 1 (1 + 1 / 20 + 1 / (2 * 10 ^ 11)) = 1 / 20 := by
    rw [relDiff,
      show |(1 : ℝ) - (1 + 1 / 20 + 1 / (2 * 10 ^ 11))| = 1 / 20 + 1 / (2 * 10 ^ 11) by
        rw [abs_sub_comm, abs_of_nonneg (by norm_num)]; ring]
    rw [abs_one]
    norm_num
  exact ⟨h,
    compare_results_five_percent_suspicious _ _ _ 1 (1 + 1 / 20 + 1 / (2 * 10 ^ 11))
      rfl rfl rfl rfl h rfl⟩

/-- C10: the returned verdict severity and issues list never depend on
either record's `final_grad_norm`; the field is only echoed into the
`details` summaries. -/
theorem compare_results_grad_norm_independent (a b : OptResult) (g g' : RVal)
    (name : String) :
    (compare_results { a with final_grad_norm := g }
        { b with final_grad_norm := g' } name).1 = (compare_results a b name).1 ∧
    (compare_results { a with final_grad_norm := g }
        { b with final_grad_norm := g' } name).2.issues
      = (compare_results a b name).2.issues ∧
    (compare_results { a with final_grad_norm := g }
        { b with final_grad_norm := g' } name).2.python.final_grad_norm = g ∧
    (compare_results { a with final_grad_norm := g }
        { b with final_grad_norm := g' } name).2.ts.final_grad_norm = g' := by
  obtain ⟨ac, ai, al, aw, ag, am, ah⟩ := a
  obtain ⟨bc, bi, bl, bw, bg, bm, bh⟩ := b
  cases al <;> cases bl <;>
    (simp only [compare_results, summaryOf]; split_ifs <;> simp_all)

/-- C1 counterexample: the comparator verdict severity is NOT invariant
under swapping the two inputs.  With final losses `1.0` and `1.105` (equal
positions, equal iteration counts), the relative loss difference is
computed against the first input's loss magnitude, so one order yields
FAIL (10.5% > 10%) and the other SUSPICIOUS (9.5%). -/
theorem compare_results_order_dependent :
    (compare_results cexPy cexTs "quadratic").1 = ComparisonStatus.FAIL ∧
      (compare_results cexTs cexPy "quadratic").1 = ComparisonStatus.SUSPICIOUS ∧
      (compare_results cexPy cexTs "quadratic").1
        ≠ (compare_results cexTs cexPy "quadratic").1 := by
  have e1 : |(1 : ℝ) - 221 / 200| = 21 / 200 := by
    rw [abs_sub_comm, abs_of_nonneg (by norm_num)]; ring
  have e2 : |(221 : ℝ) / 200 - 1| = 21 / 200 := by
    rw [abs_of_nonneg (by norm_num)]; ring
  have h1 : (10 : ℝ)⁻¹ < relDiff 1 (221 / 200) := by
    rw [relDiff, e1, abs_one]; norm_num
  have h2 : ¬ (10 : ℝ)⁻¹ < relDiff (221 / 200) 1 := by
    rw [relDiff, e2, abs_of_nonneg (by norm_num : (0:ℝ) ≤ 221 / 200)]; norm_num
  have h3 : (100 : ℝ)⁻¹ < relDiff (221 / 200) 1 := by
    rw [relDiff, e2, abs_of_nonneg (by norm_num : (0:ℝ) ≤ 221 / 200)]; norm_num
  have h4 : iterQuot 1 1 = 1 := by simp [iterQuot]
  have hfail : (compare_results cexPy cexTs "quadratic").1 = ComparisonStatus.FAIL := by
    simp [compare_results, cexPy, cexTs, h1]
  have hsus : (compare_results cexTs cexPy "quadratic").1
      = ComparisonStatus.SUSPICIOUS := by
    simp [compare_results, cexPy, cexTs, h1, h2, h3, h4, norm2_vsub_self]
    norm_num
  exact ⟨hfail, hsus, by rw [hfail, hsus]; exact fun hh => ComparisonStatus.noConfusion hh⟩

theorem compare_status_char (a b : OptResult) (name : String) (x y : ℝ)
    (hac : a.converged = true) (hbc : b.converged = true)
    (hal : a.final_loss = RVal.fin x) (hbl : b.final_loss = RVal.fin y) :
    (compare_results a b name).1 =
      if (10 : ℝ)⁻¹ < relDiff x y then ComparisonStatus.FAIL
      else if 1 < norm2 (vsub a.final_w b.final_w) then ComparisonStatus.FAIL
      else if (100 : ℝ)⁻¹ < relDiff x y ∨
          (0 < a.iterations ∧ 0 < b.iterations ∧
            3 < iterQuot a.iterations b.iterations) ∨
          ((10 : ℝ)⁻¹ < norm2 (vsub a.final_w b.final_w) ∧
            norm2 (vsub a.final_w b.final_w) ≤ 1) then ComparisonStatus.SUSPICIOUS
      else ComparisonStatus.PASS := by
  simp only [compare_results, hac, hbc, hal, hbl]
  norm_num
  split_ifs <;> first | rfl | tauto

/-- C1 amended: the verdict severity of `compare_results` is invariant
under swapping the inputs provided the relative loss difference — whose
denominator is the first input's loss magnitude — falls on the same side of
the 10% and 1% thresholds when computed with either denominator.  (The
counterexample above shows that without this proviso the claim fails.) -/
theorem compare_results_verdict_symm (a b : OptResult) (name : String)
    (h : ∀ x y, a.final_loss = RVal.fin x → b.final_loss = RVal.fin y →
      ((relDiff x y > 1 / 10 ↔ relDiff y x > 1 / 10) ∧
        (relDiff x y > 1 / 100 ↔ relDiff y x > 1 / 100))) :
    (compare_results a b name).1 = (compare_results b a name).1 := by
  rcases hca : a.converged with _ | _ <;> rcases hcb : b.converged with _ | _
  · by_cases hn : name = "non-convex-saddle" <;>
      simp [compare_results, hca, hcb, hn, apply_ite]
  · simp [compare_results, hca, hcb]
  · simp [compare_results, hca, hcb]
  · rcases hla : a.final_loss with x | _ | _ | _ <;>
      rcases hlb : b.final_loss with y | _ | _ | _ <;>
        try (simp [compare_results, hca, hcb, hla, hlb]; done)
    obtain ⟨h10, h01⟩ := h x y hla hlb
    rw [show (1:ℝ) / 10 = (10:ℝ)⁻¹ from one_div 10] at h10
    rw [show (1:ℝ) / 100 = (100:ℝ)⁻¹ from one_div 100] at h01
    rw [compare_status_char a b name x y hca hcb hla hlb,
      compare_status_char b a name y x hcb hca hlb hla,
      norm2_vsub_comm b.final_w a.final_w,
      iterQuot_comm b.iterations a.iterations]
    by_cases H10 : (10:ℝ)⁻¹ < relDiff x y
    · simp [H10, h10.mp H10]
    · have H10b : ¬ (10:ℝ)⁻¹ < relDiff y x := fun hh => H10 (h10.mpr hh)
      by_cases H01 : (100:ℝ)⁻¹ < relDiff x y
      · have H01b := h01.mp H01
        simp [H10, H10b, H01, H01b]
      · have H01b : ¬ (100:ℝ)⁻¹ < relDiff y x := fun hh => H01 (h01.mpr hh)
        simp [H10, H10b, H01, H01b, and_comm, and_left_comm]

theorem compare_results_verdict_symm_witness :
    (∀ x y, cexPy.final_loss = RVal.fin x → cexPy.final_loss = RVal.fin y →
      ((relDiff x y > 1 / 10 ↔ relDiff y x > 1 / 10) ∧
        (relDiff x y > 1 / 100 ↔ relDiff y x > 1 / 100))) ∧
      (compare_results cexPy cexPy "quadratic").1
        = (compare_results cexPy cexPy "quadratic").1 := by
  have hk : ∀ x y, cexPy.final_loss = RVal.fin x → cexPy.final_loss = RVal.fin y →
      ((relDiff x y > 1 / 10 ↔ relDiff y x > 1 / 10) ∧
        (relDiff x y > 1 / 100 ↔ relDiff y x > 1 / 100)) := by
    intro x y hx hy
    have hx1 : x = 1 := by
      have := hx.symm.trans rfl
      cases hx; rfl
    cases hx
    cases hy
    exact ⟨Iff.rfl, Iff.rfl⟩
  exact ⟨hk, compare_results_verdict_symm cexPy cexPy "quadratic" hk⟩

/-- Exhaustive description of the backtracking loop: either the returned
step size satisfies the Armijo condition (it is the first trial that did),
or every one of the `n` trials failed and the returned step size is
`alpha * rho ^ n` — one extra shrink beyond the last tested trial. -/
theorem backtrack_spec (obj : Vec → ℝ) (w d : Vec) (loss dir_grad c1 rho : ℝ) :
    ∀ n alpha,
      armijoOK obj w d loss dir_grad c1 (backtrack obj w d loss dir_grad c1 rho n alpha) ∨
        ((∀ k < n, ¬ armijoOK obj w d loss dir_grad c1 (alpha * rho ^ k)) ∧
          backtrack obj w d loss dir_grad c1 rho n alpha = alpha * rho ^ n) := by
  intro n
  induction n with
  | zero =>
    intro alpha
    exact Or.inr ⟨fun k hk => absurd hk (Nat.not_lt_zero k), by simp [backtrack]⟩
  | succ n ih =>
    intro alpha
    by_cases hc : obj (vadd w (smul alpha d)) ≤ loss + c1 * alpha * dir_grad
    · left
      rw [backtrack, if_pos hc]
      exact hc
    · rw [backtrack, if_neg hc]
      rcases ih (alpha * rho) with h | ⟨hall, heq⟩
      · exact Or.inl h
      · refine Or.inr ⟨?_, ?_⟩
        · intro k hk
          match k with
          | 0 => simpa [armijoOK] using hc
          | k + 1 =>
            have hh := hall k (by omega)
            have e : alpha * rho * rho ^ k = alpha * rho ^ (k + 1) := by ring
            rwa [e] at hh
        · rw [heq]; ring

/-- When every trial fails, the loop returns `alpha * rho ^ n`. -/
theorem backtrack_allfail (obj : Vec → ℝ) (w d : Vec) (loss dir_grad c1 rho : ℝ) :
    ∀ n alpha,
      (∀ k < n, ¬ armijoOK obj w d loss dir_grad c1 (alpha * rho ^ k)) →
      backtrack obj w d loss dir_grad c1 rho n alpha = alpha * rho ^ n := by
  intro n
  induction n with
  | zero => intro alpha _; simp [backtrack]
  | succ n ih =>
    intro alpha hall
    have h0 : ¬ (obj (vadd w (smul alpha d)) ≤ loss + c1 * alpha * dir_grad) := by
      have hh := hall 0 (Nat.succ_pos n)
      simpa [armijoOK] using hh
    rw [backtrack, if_neg h0, ih (alpha * rho) (fun k hk => by
      have hh := hall (k + 1) (by omega)
      have e : alpha * rho * rho ^ k = alpha * rho ^ (k + 1) := by ring
      rw [e]; exact hh)]
    ring

/-- On the stiff quadratic from `[1]`, any trial step `t` with
`2^20 * t >= 1` violates the Armijo condition. -/
theorem cex_armijo_fail (t : ℝ) (ht : 0 < t) (h : 1 ≤ 2 ^ 20 * t) :
    ¬ armijoOK cexObj [1] (vneg (cexGrad [1])) (cexObj [1])
      (vdot (vneg (cexGrad [1])) (cexGrad [1])) (1 / 10 ^ 4) t := by
  simp only [armijoOK, cexObj, cexGrad, vneg, vdot, vadd, smul, List.map_cons,
    List.map_nil, List.zipWith_cons_cons, List.zipWith_nil_right, List.sum_cons,
    List.sum_nil, List.getD, not_le]
  norm_num
  nlinarith [mul_le_mul_of_nonneg_right h ht.le, ht]

/-- Every backtracking trial `(1/2)^k`, `k <= 20`, fails on the stiff
quadratic. -/
theorem cex_pow_fail (k : ℕ) (hk : k ≤ 20) :
    ¬ armijoOK cexObj [1] (vneg (cexGrad [1])) (cexObj [1])
      (vdot (vneg (cexGrad [1])) (cexGrad [1])) (1 / 10 ^ 4) ((1 / 2 : ℝ) ^ k) := by
  apply cex_armijo_fail
  · positivity
  · have h2 : (2 : ℝ) ^ k ≤ 2 ^ 20 := by
      apply pow_le_pow_right₀ (by norm_num) hk
    rw [div_pow, one_pow, mul_one_div, le_div_iff₀ (by positivity)]
    simpa using h2

/-- C2 amended: at any line-search iterate the accepted step size either
satisfies the Armijo inequality with `c1 = 1e-4`, or all 20 backtracking
trials failed and the accepted step size is `rho` times the last (smallest)
trial actually tested, i.e. `(1/2)^20` rather than `(1/2)^19`. -/
theorem linesearch_armijo_or_exhausted (obj : Vec → ℝ) (grad : Vec → Vec) (w : Vec) :
    armijoOK obj w (vneg (grad w)) (obj w) (vdot (vneg (grad w)) (grad w)) (1 / 10 ^ 4)
      (backtrack obj w (vneg (grad w)) (obj w) (vdot (vneg (grad w)) (grad w))
        (1 / 10 ^ 4) (1 / 2) 20 1) ∨
    ((∀ k < 20, ¬ armijoOK obj w (vneg (grad w)) (obj w)
        (vdot (vneg (grad w)) (grad w)) (1 / 10 ^ 4) ((1 / 2 : ℝ) ^ k)) ∧
      backtrack obj w (vneg (grad w)) (obj w) (vdot (vneg (grad w)) (grad w))
        (1 / 10 ^ 4) (1 / 2) 20 1 = (1 / 2 : ℝ) ^ 20) := by
  rcases backtrack_spec obj w (vneg (grad w)) (obj w) (vdot (vneg (grad w)) (grad w))
      (1 / 10 ^ 4) (1 / 2) 20 1 with h | ⟨hall, heq⟩
  · exact Or.inl h
  · refine Or.inr ⟨fun k hk => ?_, by simpa using heq⟩
    have hh := hall k hk
    rwa [one_mul] at hh

/-- C2 counterexample: on the stiff quadratic all 20 trials fail, the
accepted step is `(1/2)^20`, which was never tested (the last tested trial
was `(1/2)^19`) and itself violates the Armijo inequality — refuting the
claim that the accepted step equals the last tested trial step. -/
theorem linesearch_last_trial_counterexample :
    backtrack cexObj [1] (vneg (cexGrad [1])) (cexObj [1])
        (vdot (vneg (cexGrad [1])) (cexGrad [1])) (1 / 10 ^ 4) (1 / 2) 20 1
      = (1 / 2 : ℝ) ^ 20 ∧
    (∀ k < 20, ¬ armijoOK cexObj [1] (vneg (cexGrad [1])) (cexObj [1])
      (vdot (vneg (cexGrad [1])) (cexGrad [1])) (1 / 10 ^ 4) ((1 / 2 : ℝ) ^ k)) ∧
    ¬ armijoOK cexObj [1] (vneg (cexGrad [1])) (cexObj [1])
      (vdot (vneg (cexGrad [1])) (cexGrad [1])) (1 / 10 ^ 4) ((1 / 2 : ℝ) ^ 20) ∧
    ((1 / 2 : ℝ) ^ 20 ≠ (1 / 2 : ℝ) ^ 19) := by
  refine ⟨?_, fun k hk => cex_pow_fail k (by omega), cex_pow_fail 20 le_rfl, by norm_num⟩
  have h := backtrack_allfail cexObj [1] (vneg (cexGrad [1])) (cexObj [1])
    (vdot (vneg (cexGrad [1])) (cexGrad [1])) (1 / 10 ^ 4) (1 / 2) 20 1
    (fun k hk => by
      have hh := cex_pow_fail k (by omega)
      rwa [one_mul])
  simpa using h

/-- C4: numerical and bridge failures are absorbed, never raised.  When the
delegated scipy call raises (`Except.error e`), `run_scipy_optimizer`
returns (does not raise) a record with `converged = false`, infinite loss
and gradient norm, and the failure text in `message`; when the external
process times out or exits non-zero, `run_typescript_test` likewise
returns a non-convergent record with infinite metrics. -/
theorem failures_absorbed (P : ProblemF) (algorithm : String) (x0 : Vec)
    (max_iter : ℕ) (tol alpha c1 : ℝ) (captured : List IterRec) (e : String)
    (initial : Vec) (timeLimit : ℕ) (rc : ℤ) (out err : String)
    (halg : algorithm = "newton" ∨ algorithm = "lbfgs") (hrc : rc ≠ 0) :
    run_scipy_optimizer P algorithm x0 max_iter tol alpha c1 (Except.error e)
        captured
      = Except.ok
          { converged := false, iterations := captured.length,
            final_loss := RVal.inf, final_w := x0, final_grad_norm := RVal.inf,
            message := "Error: " ++ e, history := captured } ∧
    (run_typescript_test ProcOutcome.timedOut initial timeLimit).converged
        = false ∧
    (run_typescript_test ProcOutcome.timedOut initial timeLimit).final_loss
        = RVal.inf ∧
    (run_typescript_test ProcOutcome.timedOut initial timeLimit).final_grad_norm
        = RVal.inf ∧
    (run_typescript_test ProcOutcome.timedOut initial timeLimit).message
        = "Timeout after " ++ toString timeLimit ++ "s" ∧
    (run_typescript_test (ProcOutcome.completed rc out err) initial timeLimit).converged
        = false ∧
    (run_typescript_test (ProcOutcome.completed rc out err) initial timeLimit).final_loss
        = RVal.inf ∧
    (run_typescript_test (ProcOutcome.completed rc out err) initial timeLimit).final_grad_norm
        = RVal.inf ∧
    (run_typescript_test (ProcOutcome.completed rc out err) initial timeLimit).message
        = "CLI error: " ++ err := by
  refine ⟨?_, rfl, rfl, rfl, rfl, ?_, ?_, ?_, ?_⟩ <;>
    rcases halg with h | h <;> subst h <;>
      simp [run_scipy_optimizer, run_typescript_test, failRecord, hrc]

theorem failures_absorbed_witness :
    (("newton" : String) = "newton" ∨ ("newton" : String) = "lbfgs") ∧
      (1 : ℤ) ≠ 0 ∧
      (run_scipy_optimizer ⟨fun _ => 0, fun _ => []⟩ "newton" [] 5 1 1 1
          (Except.error "boom") []
        = Except.ok
            { converged := false, iterations := ([] : List IterRec).length,
              final_loss := RVal.inf, final_w := [], final_grad_norm := RVal.inf,
              message := "Error: " ++ "boom", history := [] } ∧
      (run_typescript_test ProcOutcome.timedOut [] 30).converged = false ∧
      (run_typescript_test ProcOutcome.timedOut [] 30).final_loss = RVal.inf ∧
      (run_typescript_test ProcOutcome.timedOut [] 30).final_grad_norm = RVal.inf ∧
      (run_typescript_test ProcOutcome.timedOut [] 30).message
          = "Timeout after " ++ toString (30 : ℕ) ++ "s" ∧
      (run_typescript_test (ProcOutcome.completed 1 "" "bad") [] 30).converged
          = false ∧
      (run_typescript_test (ProcOutcome.completed 1 "" "bad") [] 30).final_loss
          = RVal.inf ∧
      (run_typescript_test (ProcOutcome.completed 1 "" "bad") [] 30).final_grad_norm
          = RVal.inf ∧
      (run_typescript_test (ProcOutcome.completed 1 "" "bad") [] 30).message
          = "CLI error: " ++ "bad") :=
  ⟨Or.inl rfl, by norm_num,
    failures_absorbed ⟨fun _ => 0, fun _ => []⟩ "newton" [] 5 1 1 1 [] "boom"
      [] 30 1 "" "bad" (Or.inl rfl) (by norm_num)⟩

/-- If the gradient-norm test first succeeds at the `k`-th iterate (within
the remaining budget `n`), the shared driver loop stops there: converged,
`iterations = i + k + 1`, and the final fields taken from that iterate. -/
theorem gdLoop_conv (P : ProblemF) (tol : ℝ) (stepF : Vec → Vec) (maxIter : ℕ) :
    ∀ n k i w acc, k < n →
      (∀ j < k, ¬ norm2 (P.gradient (stepF^[j] w)) < tol) →
      norm2 (P.gradient (stepF^[k] w)) < tol →
      (gdLoop P tol stepF maxIter n i w acc).converged = true ∧
      (gdLoop P tol stepF maxIter n i w acc).iterations = i + k + 1 ∧
      (gdLoop P tol stepF maxIter n i w acc).final_w = stepF^[k] w ∧
      (gdLoop P tol stepF maxIter n i w acc).final_loss
        = RVal.fin (P.objective (stepF^[k] w)) ∧
      (gdLoop P tol stepF maxIter n i w acc).final_grad_norm
        = RVal.fin (norm2 (P.gradient (stepF^[k] w))) := by
  intro n
  induction n with
  | zero => intro k i w acc hk; omega
  | succ n ih =>
    intro k i w acc hk hall hconv
    match k with
    | 0 =>
      rw [Function.iterate_zero_apply] at hconv
      rw [gdLoop, if_pos hconv]
      simp [Function.iterate_zero_apply]
    | k + 1 =>
      have h0 : ¬ norm2 (P.gradient w) < tol := by
        have hh := hall 0 (Nat.succ_pos k)
        rwa [Function.iterate_zero_apply] at hh
      rw [gdLoop, if_neg h0]
      have hall' : ∀ j < k, ¬ norm2 (P.gradient (stepF^[j] (stepF w))) < tol := by
        intro j hj
        have hh := hall (j + 1) (by omega)
        rwa [Function.iterate_succ_apply] at hh
      have hconv' : norm2 (P.gradient (stepF^[k] (stepF w))) < tol := by
        rwa [Function.iterate_succ_apply] at hconv
      have hres := ih k (i + 1) (stepF w) (acc ++ [⟨i, w, P.objective w, norm2 (P.gradient w)⟩])
        (by omega) hall' hconv'
      rw [← Function.iterate_succ_apply] at hres
      refine ⟨hres.1, ?_, hres.2.2.1, hres.2.2.2.1, hres.2.2.2.2⟩
      rw [hres.2.1]; omega

/-- If the gradient-norm test fails at all `n` remaining iterates, the
shared driver loop exhausts its budget: not converged, `iterations =
maxIter`, and the final fields taken from the iterate after the last
update. -/
theorem gdLoop_exh (P : ProblemF) (tol : ℝ) (stepF : Vec → Vec) (maxIter : ℕ) :
    ∀ n i w acc,
      (∀ j < n, ¬ norm2 (P.gradient (stepF^[j] w)) < tol) →
      (gdLoop P tol stepF maxIter n i w acc).converged = false ∧
      (gdLoop P tol stepF maxIter n i w acc).iterations = maxIter ∧
      (gdLoop P tol stepF maxIter n i w acc).final_w = stepF^[n] w ∧
      (gdLoop P tol stepF maxIter n i w acc).final_loss
        = RVal.fin (P.objective (stepF^[n] w)) ∧
      (gdLoop P tol stepF maxIter n i w acc).final_grad_norm
        = RVal.fin (norm2 (P.gradient (stepF^[n] w))) := by
  intro n
  induction n with
  | zero =>
    intro i w acc _
    rw [gdLoop]
    simp [Function.iterate_zero_apply]
  | succ n ih =>
    intro i w acc hall
    have h0 : ¬ norm2 (P.gradient w) < tol := by
      have hh := hall 0 (Nat.succ_pos n)
      rwa [Function.iterate_zero_apply] at hh
    rw [gdLoop, if_neg h0]
    have hall' : ∀ j < n, ¬ norm2 (P.gradient (stepF^[j] (stepF w))) < tol := by
      intro j hj
      have hh := hall (j + 1) (by omega)
      rwa [Function.iterate_succ_apply] at hh
    have hres := ih (i + 1) (stepF w) (acc ++ [⟨i, w, P.objective w, norm2 (P.gradient w)⟩]) hall'
    rw [← Function.iterate_succ_apply] at hres
    exact hres

/-- Bookkeeping invariant of the shared driver loop: on convergence the
`iterations` field is the index of the last history record plus one; on
exhaustion it is the configured cap and the history carries one record per
index `0..maxIter`. -/
theorem gdLoop_book (P : ProblemF) (tol : ℝ) (stepF : Vec → Vec) (maxIter : ℕ) :
    ∀ n i w acc, acc.length = i →
      ((gdLoop P tol stepF maxIter n i w acc).converged = true →
        ∃ r, (gdLoop P tol stepF maxIter n i w acc).history.getLast? = some r ∧
          (gdLoop P tol stepF maxIter n i w acc).iterations = r.iter + 1) ∧
      ((gdLoop P tol stepF maxIter n i w acc).converged = false →
        (gdLoop P tol stepF maxIter n i w acc).iterations = maxIter ∧
        (gdLoop P tol stepF maxIter n i w acc).history.length = i + n + 1) := by
  intro n
  induction n with
  | zero =>
    intro i w acc hlen
    rw [gdLoop]
    constructor
    · intro h; simp at h
    · intro _
      simp [hlen]
  | succ n ih =>
    intro i w acc hlen
    by_cases hc : norm2 (P.gradient w) < tol
    · rw [gdLoop, if_pos hc]
      constructor
      · intro _
        exact ⟨⟨i, w, P.objective w, norm2 (P.gradient w)⟩, by simp, by simp⟩
      · intro h; simp at h
    · rw [gdLoop, if_neg hc]
      have hres := ih (i + 1) (stepF w)
        (acc ++ [⟨i, w, P.objective w, norm2 (P.gradient w)⟩]) (by simp [hlen])
      refine ⟨hres.1, fun h => ⟨(hres.2 h).1, ?_⟩⟩
      rw [(hres.2 h).2]; omega

/-- C5: fixed-step gradient descent follows `w <- w - alpha * grad(w)`
(the iterates are exactly `fixedStep^[j] x0`); it returns `converged =
true` at the first iterate whose pre-update gradient norm is below `tol`,
with `iterations = k + 1` and that iterate as final position; otherwise it
performs exactly `max_iter` update steps and returns `converged = false`. -/
theorem gradient_descent_fixed_spec (P : ProblemF) (x0 : Vec) (alpha : ℝ)
    (max_iter : ℕ) (tol : ℝ) :
    (∀ k, k < max_iter →
      (∀ j < k, ¬ norm2 (P.gradient ((fixedStep P alpha)^[j] x0)) < tol) →
      norm2 (P.gradient ((fixedStep P alpha)^[k] x0)) < tol →
      (gradient_descent_fixed P x0 alpha max_iter tol).converged = true ∧
      (gradient_descent_fixed P x0 alpha max_iter tol).iterations = k + 1 ∧
      (gradient_descent_fixed P x0 alpha max_iter tol).final_w
        = (fixedStep P alpha)^[k] x0) ∧
    ((∀ j < max_iter, ¬ norm2 (P.gradient ((fixedStep P alpha)^[j] x0)) < tol) →
      (gradient_descent_fixed P x0 alpha max_iter tol).converged = false ∧
      (gradient_descent_fixed P x0 alpha max_iter tol).iterations = max_iter ∧
      (gradient_descent_fixed P x0 alpha max_iter tol).final_w
        = (fixedStep P alpha)^[max_iter] x0) := by
  constructor
  · intro k hk hall hconv
    have h := gdLoop_conv P tol (fixedStep P alpha) max_iter max_iter k 0 x0 []
      hk hall hconv
    refine ⟨h.1, ?_, h.2.2.1⟩
    have h2 := h.2.1
    simpa [gradient_descent_fixed] using h2
  · intro hall
    have h := gdLoop_exh P tol (fixedStep P alpha) max_iter max_iter 0 x0 [] hall
    exact ⟨h.1, h.2.1, h.2.2.1⟩

theorem gradient_descent_fixed_spec_witness :
    ((0 : ℕ) < 5 ∧
      norm2 (ProblemF.gradient ⟨fun w => w.getD 0 0 ^ 2, fun w => [2 * w.getD 0 0]⟩
        ((fixedStep ⟨fun w => w.getD 0 0 ^ 2, fun w => [2 * w.getD 0 0]⟩ (1/10))^[0] [0]))
        < 1 / 10 ^ 6 ∧
      (gradient_descent_fixed ⟨fun w => w.getD 0 0 ^ 2, fun w => [2 * w.getD 0 0]⟩
        [0] (1/10) 5 (1/10^6)).converged = true ∧
      (gradient_descent_fixed ⟨fun w => w.getD 0 0 ^ 2, fun w => [2 * w.getD 0 0]⟩
        [0] (1/10) 5 (1/10^6)).iterations = 0 + 1) ∧
    ((∀ j < 1, ¬ norm2 (ProblemF.gradient ⟨fun _ => (0:ℝ), fun _ => [1]⟩
        ((fixedStep ⟨fun _ => (0:ℝ), fun _ => [1]⟩ (1/10))^[j] [])) < 1 / 10 ^ 6) ∧
      (gradient_descent_fixed ⟨fun _ => (0:ℝ), fun _ => [1]⟩ [] (1/10) 1
        (1/10^6)).converged = false ∧
      (gradient_descent_fixed ⟨fun _ => (0:ℝ), fun _ => [1]⟩ [] (1/10) 1
        (1/10^6)).iterations = 1) := by
  have hg0 : norm2 (ProblemF.gradient ⟨fun w => w.getD 0 0 ^ 2, fun w => [2 * w.getD 0 0]⟩
      ((fixedStep ⟨fun w => w.getD 0 0 ^ 2, fun w => [2 * w.getD 0 0]⟩ (1/10))^[0] [0]))
      < 1 / 10 ^ 6 := by
    norm_num [norm2, Function.iterate_zero_apply, Real.sqrt_zero]
  have hg1 : ∀ j < 1, ¬ norm2 (ProblemF.gradient ⟨fun _ => (0:ℝ), fun _ => [1]⟩
      ((fixedStep ⟨fun _ => (0:ℝ), fun _ => [1]⟩ (1/10))^[j] [])) < 1 / 10 ^ 6 := by
    intro j hj
    match j, hj with
    | 0, _ => norm_num [norm2, Function.iterate_zero_apply, Real.sqrt_one]
  have c1 := (gradient_descent_fixed_spec
    ⟨fun w => w.getD 0 0 ^ 2, fun w => [2 * w.getD 0 0]⟩ [0] (1/10) 5 (1/10^6)).1
    0 (by norm_num) (fun j hj => absurd hj (Nat.not_lt_zero j)) hg0
  have c2 := (gradient_descent_fixed_spec
    ⟨fun _ => (0:ℝ), fun _ => [1]⟩ [] (1/10) 1 (1/10^6)).2 hg1
  exact ⟨⟨by norm_num, hg0, c1.1, c1.2.1⟩, ⟨hg1, c2.1, c2.2.1⟩⟩

/-- C6: for both drivers, on convergence `iterations` equals the index of
the last history record plus one; on exhaustion `iterations` equals the
configured cap and the history holds `max_iter + 1` records (a trailing
record is appended after the final update). -/
theorem gd_history_iterations_spec (P : ProblemF) (x0 : Vec) (alpha : ℝ)
    (max_iter : ℕ) (tol c1 rho : ℝ) (trials : ℕ) :
    ((gradient_descent_fixed P x0 alpha max_iter tol).converged = true →
      ∃ r, (gradient_descent_fixed P x0 alpha max_iter tol).history.getLast?
          = some r ∧
        (gradient_descent_fixed P x0 alpha max_iter tol).iterations = r.iter + 1) ∧
    ((gradient_descent_fixed P x0 alpha max_iter tol).converged = false →
      (gradient_descent_fixed P x0 alpha max_iter tol).iterations = max_iter ∧
      (gradient_descent_fixed P x0 alpha max_iter tol).history.length
        = max_iter + 1) ∧
    ((gradient_descent_linesearch P x0 max_iter tol c1 rho trials).converged = true →
      ∃ r, (gradient_descent_linesearch P x0 max_iter tol c1 rho trials).history.getLast?
          = some r ∧
        (gradient_descent_linesearch P x0 max_iter tol c1 rho trials).iterations
          = r.iter + 1) ∧
    ((gradient_descent_linesearch P x0 max_iter tol c1 rho trials).converged = false →
      (gradient_descent_linesearch P x0 max_iter tol c1 rho trials).iterations
        = max_iter ∧
      (gradient_descent_linesearch P x0 max_iter tol c1 rho trials).history.length
        = max_iter + 1) := by
  have hf := gdLoop_book P tol (fixedStep P alpha) max_iter max_iter 0 x0 [] rfl
  have hl := gdLoop_book P tol (lineSearchStep P c1 rho trials) max_iter max_iter
    0 x0 [] rfl
  refine ⟨hf.1, fun h => ⟨(hf.2 h).1, ?_⟩, hl.1, fun h => ⟨(hl.2 h).1, ?_⟩⟩
  · have h2 := (hf.2 h).2
    simpa [gradient_descent_fixed] using h2
  · have h2 := (hl.2 h).2
    simpa [gradient_descent_linesearch] using h2

theorem gd_history_iterations_spec_witness :
    ((gradient_descent_fixed ⟨fun w => w.getD 0 0 ^ 2, fun w => [2 * w.getD 0 0]⟩
        [0] (1/10) 5 (1/10^6)).converged = true ∧
      (∃ r, (gradient_descent_fixed ⟨fun w => w.getD 0 0 ^ 2, fun w => [2 * w.getD 0 0]⟩
          [0] (1/10) 5 (1/10^6)).history.getLast? = some r ∧
        (gradient_descent_fixed ⟨fun w => w.getD 0 0 ^ 2, fun w => [2 * w.getD 0 0]⟩
          [0] (1/10) 5 (1/10^6)).iterations = r.iter + 1)) ∧
    ((gradient_descent_fixed ⟨fun _ => (0:ℝ), fun _ => [1]⟩ [] (1/10) 1
        (1/10^6)).converged = false ∧
      (gradient_descent_fixed ⟨fun _ => (0:ℝ), fun _ => [1]⟩ [] (1/10) 1
        (1/10^6)).history.length = 1 + 1) ∧
    ((gradient_descent_linesearch ⟨fun w => w.getD 0 0 ^ 2, fun w => [2 * w.getD 0 0]⟩
        [0] 5 (1/10^6) (1/10^4) (1/2) 20).converged = true ∧
      (∃ r, (gradient_descent_linesearch ⟨fun w => w.getD 0 0 ^ 2, fun w => [2 * w.getD 0 0]⟩
          [0] 5 (1/10^6) (1/10^4) (1/2) 20).history.getLast? = some r ∧
        (gradient_descent_linesearch ⟨fun w => w.getD 0 0 ^ 2, fun w => [2 * w.getD 0 0]⟩
          [0] 5 (1/10^6) (1/10^4) (1/2) 20).iterations = r.iter + 1)) ∧
    ((gradient_descent_linesearch ⟨fun _ => (0:ℝ), fun _ => [1]⟩ [] 1 (1/10^6)
        (1/10^4) (1/2) 20).converged = false ∧
      (gradient_descent_linesearch ⟨fun _ => (0:ℝ), fun _ => [1]⟩ [] 1 (1/10^6)
        (1/10^4) (1/2) 20).history.length = 1 + 1) := by
  have hg0 : norm2 (ProblemF.gradient ⟨fun w => w.getD 0 0 ^ 2, fun w => [2 * w.getD 0 0]⟩ [0])
      < 1 / 10 ^ 6 := by
    norm_num [norm2, Real.sqrt_zero]
  have hg1 : ¬ norm2 (ProblemF.gradient ⟨fun _ => (0:ℝ), fun _ => [1]⟩ [])
      < 1 / 10 ^ 6 := by
    norm_num [norm2, Real.sqrt_one]
  have hcf : (gradient_descent_fixed ⟨fun w => w.getD 0 0 ^ 2, fun w => [2 * w.getD 0 0]⟩
      [0] (1/10) 5 (1/10^6)).converged = true :=
    (gdLoop_conv _ _ _ 5 5 0 0 [0] [] (by norm_num)
      (fun j hj => absurd hj (Nat.not_lt_zero j))
      (by rw [Function.iterate_zero_apply]; exact hg0)).1
  have hef : (gradient_descent_fixed ⟨fun _ => (0:ℝ), fun _ => [1]⟩ [] (1/10) 1
      (1/10^6)).converged = false :=
    (gdLoop_exh _ _ _ 1 1 0 [] [] (fun j hj => by
      match j, hj with
      | 0, _ => rw [Function.iterate_zero_apply]; exact hg1)).1
  have hcl : (gradient_descent_linesearch ⟨fun w => w.getD 0 0 ^ 2, fun w => [2 * w.getD 0 0]⟩
      [0] 5 (1/10^6) (1/10^4) (1/2) 20).converged = true :=
    (gdLoop_conv _ _ _ 5 5 0 0 [0] [] (by norm_num)
      (fun j hj => absurd hj (Nat.not_lt_zero j))
      (by rw [Function.iterate_zero_apply]; exact hg0)).1
  have hel : (gradient_descent_linesearch ⟨fun _ => (0:ℝ), fun _ => [1]⟩ [] 1 (1/10^6)
      (1/10^4) (1/2) 20).converged = false :=
    (gdLoop_exh _ _ _ 1 1 0 [] [] (fun j hj => by
      match j, hj with
      | 0, _ => rw [Function.iterate_zero_apply]; exact hg1)).1
  have s1 := gd_history_iterations_spec
    ⟨fun w => w.getD 0 0 ^ 2, fun w => [2 * w.getD 0 0]⟩ [0] (1/10) 5 (1/10^6)
    (1/10^4) (1/2) 20
  have s2 := gd_history_iterations_spec
    ⟨fun _ => (0:ℝ), fun _ => [1]⟩ [] (1/10) 1 (1/10^6) (1/10^4) (1/2) 20
  exact ⟨⟨hcf, s1.1 hcf⟩, ⟨hef, (s2.2.1 hef).2⟩,
    ⟨hcl, s1.2.2.1 hcl⟩, ⟨hel, (s2.2.2.2 hel).2⟩⟩

/-- Pulling a scalar factor out of a conditional sum over the dataset. -/
theorem sum_map_if_mul (l : List DataPoint) (c : DataPoint → Prop) [DecidablePred c]
    (f : DataPoint → ℝ) (a : ℝ) :
    (l.map (fun p => if c p then a * f p else 0)).sum
      = a * (l.map (fun p => if c p then f p else 0)).sum := by
  induction l with
  | nil => simp
  | cons p t ih => simp [ih, mul_add, mul_ite]

/-- C9: in every data-fitted problem the regularization term contributes
nothing to the bias (third) coordinate.  For logistic regression and the
perceptron (whose weight penalty is scaled by `lam`) the bias component of
the gradient — and for logistic regression the `[2][2]` Hessian entry — is
independent of `lam`; for the soft-margin and squared-hinge SVMs (whose
`lam`-free penalty `||w||^2/2` starts the gradient as `[w0, w1, 0]`) the
bias component scales linearly in `lam`, i.e. it consists of data terms
only and receives nothing from the penalty. -/
theorem data_problems_bias_unregularized (pts : List DataPoint) (lam : ℝ) (w : Vec) :
    (LogisticRegression.gradient pts lam w).getD 2 0
        = (LogisticRegression.gradient pts 0 w).getD 2 0 ∧
    ((LogisticRegression.hessian pts lam w).getD 2 []).getD 2 0
        = ((LogisticRegression.hessian pts 0 w).getD 2 []).getD 2 0 ∧
    (SoftMarginSVM.gradient pts lam w).getD 2 0
        = lam * (SoftMarginSVM.gradient pts 1 w).getD 2 0 ∧
    (PerceptronSVM.gradient pts lam w).getD 2 0
        = (PerceptronSVM.gradient pts 0 w).getD 2 0 ∧
    (SquaredHingeSVM.gradient pts lam w).getD 2 0
        = lam * (SquaredHingeSVM.gradient pts 1 w).getD 2 0 ∧
    ((SquaredHingeSVM.hessian pts lam w).getD 2 []).getD 2 0
        = lam * ((SquaredHingeSVM.hessian pts 1 w).getD 2 []).getD 2 0 := by
  refine ⟨rfl, rfl, ?_, rfl, ?_, ?_⟩
  · simp only [SoftMarginSVM.gradient, List.getD, List.get?_eq_getElem?]
    norm_num
    exact sum_map_if_mul pts _ mLabel lam
  · simp only [SquaredHingeSVM.gradient, List.getD, List.get?_eq_getElem?]
    norm_num
    rw [show (fun p => if mLabel p * dotX p w < 1 then
          2 * lam * (1 - mLabel p * dotX p w) * mLabel p else 0)
        = fun p => if mLabel p * dotX p w < 1 then
          lam * (2 * (1 - mLabel p * dotX p w) * mLabel p) else 0 by
      funext p; by_cases hc : mLabel p * dotX p w < 1 <;> simp [hc] <;> ring]
    exact sum_map_if_mul pts _ _ lam
  · simp only [SquaredHingeSVM.hessian, List.getD, List.get?_eq_getElem?]
    norm_num
    rw [show (fun p => if mLabel p * dotX p w < 1 then 2 * lam else 0)
        = fun p => if mLabel p * dotX p w < 1 then lam * 2 else 0 by
      funext p; by_cases hc : mLabel p * dotX p w < 1 <;> simp [hc] <;> ring]
    exact sum_map_if_mul pts _ (fun _ => 2) lam

/-- C8 counterexample: a CLI text whose gradient-norm field is missing
(unparseable) but whose loss parses does NOT produce a non-convergent
infinite-metric record — the returned record is convergent with a finite
loss, only the gradient norm defaults to infinity. -/
theorem parse_ts_output_partial_counterexample :
    (parse_ts_output "✅ CONVERGED in 5 iterations\n   Final loss: 1.0\n"
        [0]).converged = true ∧
      (parse_ts_output "✅ CONVERGED in 5 iterations\n   Final loss: 1.0\n"
        [0]).final_loss.isfinite = true ∧
      (parse_ts_output "✅ CONVERGED in 5 iterations\n   Final loss: 1.0\n"
        [0]).final_grad_norm = RVal.inf :=
  ⟨rfl, rfl, rfl⟩

/-- C8 amended: `parse_ts_output` is total (never raises — both a parse
exception and a missing field produce a record), and whenever the returned
loss is non-finite — in particular when the loss field is unparseable —
the record is non-convergent; other unparseable fields only default
individually (iterations to 0, gradient norm to infinity, position to the
initial point) without forcing a non-convergent record. -/
theorem parse_ts_output_nonfinite_loss_not_converged (stdout : String)
    (initial : Vec)
    (h : (parse_ts_output stdout initial).final_loss.isfinite = false) :
    (parse_ts_output stdout initial).converged = false := by
  rcases hc : parse_ts_core stdout initial with _ | r
  · simp [parse_ts_output, hc, failRecord]
  · rw [parse_ts_output, hc] at h ⊢
    rw [parse_ts_core] at hc
    simp only [bind, Option.bind_eq_some] at hc
    obtain ⟨fl, hfl, hc⟩ := hc
    obtain ⟨fg, hfg, hc⟩ := hc
    obtain ⟨fw, hfw, hc⟩ := hc
    simp only [Option.some.injEq] at hc
    subst hc
    rw [Option.getD_some] at h ⊢
    simp only at h ⊢
    rw [if_neg]
    intro hcontra
    rw [hcontra] at h
    simp at h

theorem parse_ts_output_nonfinite_loss_not_converged_witness :
    (parse_ts_output "" []).final_loss.isfinite = false ∧
      (parse_ts_output "" []).converged = false :=
  ⟨rfl, parse_ts_output_nonfinite_loss_not_converged "" [] rfl⟩
